import Mathlib

/-! Food-Ingredient-Identifier: the analysis relay server (`server.js`)

A shallow embedding of `server.js`: the JavaScript values the handlers read
and build, the `POST /api/analyze` handler with its `try`/`catch`, the
wildcard `GET` handler, the error-handling middleware, and the order in
which the Express application registers them.

Conventions of the embedding.

* JavaScript values are the type `JsVal`.  Numbers are the integers (HTTP
  status codes and integer JSON literals); fractional numbers are not
  represented.
* A JavaScript expression that may throw is a value of `Except JsVal JsVal`:
  `.error e` is `throw e`.
* The effects of a handler (the outbound `axios.post` calls, the lines
  written by `console.error`, `res.status`, `res.json`, `res.sendFile`) are
  recorded in explicit state.
* `axios`, `express` (version 4, the version that accepts the route `'*'`)
  and `serve-static` are libraries, not code of this repository.  Their
  behaviour is modelled where the server relies on it: what `axios.post`
  settles with; when `res.json` fails and when the body is dropped; how the
  static middleware answers a file, a directory and a missing path; the
  order and the method/path matching of the registered layers; and that a
  rejection of an `async` route handler is not passed to the error
  middleware.
-/

namespace FoodIngredientIdentifier

/-! ## JavaScript values -/

/-- The JavaScript values that occur in the server: JSON data plus `undefined`. -/
inductive JsVal where
  | undefined : JsVal
  | null : JsVal
  | bool (b : Bool) : JsVal
  | num (n : Int) : JsVal
  | str (s : String) : JsVal
  | arr (items : List JsVal) : JsVal
  | obj (fields : List (String × JsVal)) : JsVal

namespace JsVal

/-- The values `null` and `undefined`, on which a property read throws. -/
def isNullish : JsVal → Bool
  | undefined => true
  | null => true
  | _ => false

/-- JavaScript truthiness, as used by `||`. -/
def truthy : JsVal → Bool
  | undefined => false
  | null => false
  | bool b => b
  | num n => n != 0
  | str s => s != ""
  | arr _ => true
  | obj _ => true

/-- Own property of an object given as its list of fields. -/
def lookup (k : String) : List (String × JsVal) → Option JsVal
  | [] => none
  | (k', v) :: rest => if k' = k then some v else lookup k rest

/-- The `TypeError` thrown by a property read on `null` or `undefined`.  It is
an error object with a message and a stack and no `response` property.  The
wording of the message is the engine's; it reaches only the log. -/
def typeError (reading : String) : JsVal :=
  obj [("name", str "TypeError"),
       ("message", str ("Cannot read properties of undefined or null: " ++ reading)),
       ("stack", str ("TypeError: Cannot read properties of undefined or null: " ++ reading))]

/-- The read `v.k` for a property name `k` that is not an array index.  The
names read by `server.js` (`body`, `image`, `data`, `output`, `choices`,
`message`, `content`, `text`, `response`, `status`, `stack`) are not properties
of arrays, strings, numbers or booleans, so on those the read gives
`undefined`. -/
def getProp (v : JsVal) (k : String) : Except JsVal JsVal :=
  match v with
  | undefined => .error (typeError k)
  | null => .error (typeError k)
  | obj fields => .ok ((lookup k fields).getD undefined)
  | _ => .ok undefined

/-- The read `v[0]`. -/
def getIndex0 (v : JsVal) : Except JsVal JsVal :=
  match v with
  | undefined => .error (typeError "0")
  | null => .error (typeError "0")
  | arr items => .ok (items.head?.getD undefined)
  | obj fields => .ok ((lookup "0" fields).getD undefined)
  | str s => .ok (match s.data with
      | [] => undefined
      | c :: _ => str (String.singleton c))
  | _ => .ok undefined

/-- The optional chain `base?.k`, for an already evaluated `base`. -/
def optChain (base : JsVal) (k : String) : Except JsVal JsVal :=
  if base.isNullish then .ok undefined else getProp base k

/-- The keys of an object value. -/
def keys : JsVal → List String
  | obj fields => fields.map Prod.fst
  | _ => []

/-- The keys `JSON.stringify` writes for an object value: a key whose value is
`undefined` is left out. -/
def wireKeys : JsVal → List String
  | obj fields => (fields.filter (fun kv => match kv.2 with
      | undefined => false
      | _ => true)).map Prod.fst
  | _ => []

end JsVal

open JsVal

/-! ## Process configuration, requests, responses -/

/-- The part of `process.env` the request handler reads. -/
structure Env where
  DASHSCOPE_API_KEY : Option String

/-- Interpolation `${x}` of an environment variable in a template literal. -/
def interpolate : Option String → String
  | some s => s
  | none => "undefined"

/-- One `axios.post(url, data, config)` call. -/
structure OutboundCall where
  url : String
  payload : JsVal
  headers : List (String × String)

/-- What `axios.post` settles with. -/
inductive Outcome where
  | resolved (response : JsVal) : Outcome
  | rejected (error : JsVal) : Outcome

/-- The response object `axios` resolves with, carrying the parsed body. -/
def axiosResponse (status : Nat) (data : JsVal) : JsVal :=
  obj [("data", data), ("status", num status)]

/-- The error `axios` rejects with when the upstream answered with a status
outside 2xx. -/
def axiosErrorWithResponse (message : String) (status : Nat) (data : JsVal) : JsVal :=
  obj [("message", str message), ("name", str "AxiosError"),
       ("response", axiosResponse status data)]

/-- The error `axios` rejects with when no response was received. -/
def axiosErrorNoResponse (message : String) : JsVal :=
  obj [("message", str message), ("name", str "AxiosError")]

/-- The upstream service: the outcome of the `n`-th call made by the process. -/
abbrev Upstream := Nat → OutboundCall → Outcome

/-- File contents. -/
abbrev Bytes := List Nat

/-- What the client receives as the response body. -/
inductive Body where
  /-- The JSON text of a value. -/
  | json (v : JsVal) : Body
  /-- The bytes of a file. -/
  | file (bytes : Bytes) : Body
  /-- No body. -/
  | empty : Body
  /-- The redirect page of the static middleware, sent with a `Location`
  header naming the request path followed by a slash. -/
  | redirect : Body

/-- One response written to the client. `status` is `res.statusCode`. -/
structure Response where
  status : JsVal
  body : Body

/-- Effects that outlive a request: calls made and lines logged. -/
structure World where
  calls : List OutboundCall
  log : List (List JsVal)

/-- The `res` object of one request. -/
structure Res where
  statusCode : JsVal
  sent : List Response

/-- A fresh `res`: status code 200, nothing sent. -/
def Res.fresh : Res := ⟨num 200, []⟩

/-- The call `res.status(code)`: it stores the code. -/
def Res.status (res : Res) (code : JsVal) : Res :=
  { res with statusCode := code }

/-- The status codes a response head can be written with: the integers from
100 to 999.  The status `axios` reports is a number; a value that is not a
number is not taken as a status here. -/
def sendable : JsVal → Bool
  | num n => decide (100 ≤ n) && decide (n ≤ 999)
  | _ => false

/-- The status codes whose response carries no body: `res.send` drops the
body at 204, 205 and 304, and the HTTP server writes none at 1xx, 204 and
304. -/
def bodiless : JsVal → Bool
  | num n => (decide (100 ≤ n) && decide (n ≤ 199)) || n == 204 || n == 205 || n == 304
  | _ => false

/-- The status codes a JSON body reaches the client with. -/
def sendsBody (status : JsVal) : Bool :=
  sendable status && !bodiless status

/-- The `RangeError` raised when the response head is written with a status
code outside 100..999.  It has no `response` property. -/
def rangeError : JsVal :=
  obj [("name", str "RangeError"), ("code", str "ERR_HTTP_INVALID_STATUS_CODE"),
       ("message", str "Invalid status code"),
       ("stack", str "RangeError [ERR_HTTP_INVALID_STATUS_CODE]: Invalid status code")]

/-- The state of `res` after one response with the given status and body. -/
def Res.replied (res : Res) (status : JsVal) (body : Body) : Res :=
  ⟨status, res.sent ++ [⟨status, body⟩]⟩

/-- The call `res.json(body)`: it writes the response with the stored status
code.  With a status code outside 100..999 writing the head throws and
nothing is sent; with a status code that carries no body the body is
dropped. -/
def Res.json (res : Res) (body : JsVal) : Except JsVal Res :=
  if sendable res.statusCode then
    .ok (res.replied res.statusCode
      (if bodiless res.statusCode then Body.empty else Body.json body))
  else .error rangeError

/-- The call `res.sendFile(path)` for a file with the given contents. -/
def Res.sendFile (res : Res) (bytes : Bytes) : Res :=
  { res with sent := res.sent ++ [⟨res.statusCode, Body.file bytes⟩] }

/-! ## `POST /api/analyze` -/

/-- The URL of line 25. -/
def apiUrl : String :=
  "https://dashscope.aliyuncs.com/api/v1/services/aigc/multimodal-generation/generation"

/-- The prompt of line 34. -/
def promptText : String :=
  "请详细分析这张图片的内容，告诉我你看到了什么？请用通俗易懂的语言描述。"

/-- The request data of lines 26-43. -/
def requestPayload (imageData : JsVal) : JsVal :=
  obj [("model", str "qwen-vl-plus"),
       ("input", obj [("messages", arr [
          obj [("role", str "user"),
               ("content", arr [obj [("text", str promptText)],
                                obj [("image", imageData)]])]])])]

/-- The headers of lines 45-48. -/
def requestHeaders (env : Env) : List (String × String) :=
  [("Content-Type", "application/json"),
   ("Authorization", "Bearer " ++ interpolate env.DASHSCOPE_API_KEY)]

/-- The whole `axios.post` call of lines 24-50. -/
def outboundCall (env : Env) (imageData : JsVal) : OutboundCall :=
  ⟨apiUrl, requestPayload imageData, requestHeaders env⟩

/-- The expression `response.data.output.choices[0].message.content[0].text`
of line 54. -/
def extractText (response : JsVal) : Except JsVal JsVal := do
  let data ← getProp response "data"
  let output ← getProp data "output"
  let choices ← getProp output "choices"
  let choice ← getIndex0 choices
  let message ← getProp choice "message"
  let content ← getProp message "content"
  let item ← getIndex0 content
  getProp item "text"

/-- The state a handler works on, and whether it returned or threw. -/
structure Run where
  world : World
  res : Res
  thrown : Option JsVal

/-- The `try` block, lines 21-55. -/
def analyzeTry (env : Env) (up : Upstream) (body : JsVal) (w : World) (res : Res) : Run :=
  match getProp body "image" with
  | .error e => ⟨w, res, some e⟩
  | .ok imageData =>
    let call := outboundCall env imageData
    let w1 : World := { w with calls := w.calls ++ [call] }
    match up w.calls.length call with
    | .rejected error => ⟨w1, res, some error⟩
    | .resolved response =>
      match extractText response with
      | .error e => ⟨w1, res, some e⟩
      | .ok text =>
        match res.json (obj [("success", bool true), ("result", text)]) with
        | .error e => ⟨w1, res, some e⟩
        | .ok res1 => ⟨w1, res1, none⟩

/-- The logged value `error.response?.data || error.message` of line 57. -/
def catchLogArg (error : JsVal) : Except JsVal JsVal := do
  let response ← getProp error "response"
  let data ← optChain response "data"
  if data.truthy then pure data else getProp error "message"

/-- The status `error.response?.status || 500` of line 58. -/
def catchStatus (error : JsVal) : Except JsVal JsVal := do
  let response ← getProp error "response"
  let status ← optChain response "status"
  pure (if status.truthy then status else num 500)

/-- The value `error.response?.data || 'Internal Server Error'` of line 59. -/
def catchErrorField (error : JsVal) : Except JsVal JsVal := do
  let response ← getProp error "response"
  let data ← optChain response "data"
  pure (if data.truthy then data else str "Internal Server Error")

/-- The `catch` block, lines 57-60. -/
def analyzeCatch (error : JsVal) (w : World) (res : Res) : Run :=
  match catchLogArg error with
  | .error e => ⟨w, res, some e⟩
  | .ok logged =>
    let w1 : World := { w with log := w.log ++ [[str "API Error:", logged]] }
    match catchStatus error with
    | .error e => ⟨w1, res, some e⟩
    | .ok status =>
      let res1 := res.status status
      match catchErrorField error with
      | .error e => ⟨w1, res1, some e⟩
      | .ok field =>
        match res1.json (obj [("error", field)]) with
        | .error e => ⟨w1, res1, some e⟩
        | .ok res2 => ⟨w1, res2, none⟩

/-- The handler of lines 19-62: the `try` block, and the `catch` block on
whatever the `try` block threw. -/
def analyzeHandler (env : Env) (up : Upstream) (body : JsVal) (w : World) (res : Res) : Run :=
  let r := analyzeTry env up body w res
  match r.thrown with
  | none => r
  | some error => analyzeCatch error r.world r.res

/-! ## The wildcard route and the error-handling middleware -/

/-- What lies on disk at a path under `dist`. -/
inductive DiskEntry where
  | file (bytes : Bytes) : DiskEntry
  | dir : DiskEntry

/-- The built bundle under `dist`. -/
structure Site where
  /-- What the static middleware finds on disk for a request path, after
  its own decoding and joining of the path to `dist`; `none` when there is
  nothing, or when it refuses the path (a dotfile, a path leaving `dist`). -/
  node : String → Option DiskEntry
  /-- What `res.sendFile` reads for `dist/index.html`; `none` when it
  cannot. -/
  entry : Option Bytes

/-- What `express.static` does with a `GET`. -/
inductive StaticResult where
  /-- It serves a file. -/
  | file (bytes : Bytes) : StaticResult
  /-- It answers 301 with the path followed by a slash. -/
  | redirect : StaticResult
  /-- It calls `next()`. -/
  | pass : StaticResult

/-- Whether a request path ends with a slash. -/
def hasTrailingSlash (path : String) : Bool :=
  match path.data.getLast? with
  | some c => c == '/'
  | none => false

/-- The static middleware with its default options (`index: 'index.html'`,
`redirect: true`, `fallthrough: true`): a path ending with a slash is
answered with the `index.html` under it; any other path with the file it
names, or with a redirect when it names a directory; a path with nothing to
serve is passed on. -/
def staticResolve (site : Site) (path : String) : StaticResult :=
  if hasTrailingSlash path then
    match site.node (path ++ "index.html") with
    | some (DiskEntry.file bytes) => StaticResult.file bytes
    | _ => StaticResult.pass
  else
    match site.node path with
    | some (DiskEntry.file bytes) => StaticResult.file bytes
    | some DiskEntry.dir => StaticResult.redirect
    | none => StaticResult.pass

/-- The error `res.sendFile` passes to `next` when the file does not exist. -/
def enoent : JsVal :=
  obj [("code", str "ENOENT"), ("status", num 404),
       ("message", str "ENOENT: no such file or directory"),
       ("stack", str "Error: ENOENT: no such file or directory")]

/-- How a layer leaves the request: it answered, it called `next()`, an
error was passed on (`next(err)`, or a throw caught by the router), or the
promise of an `async` handler was rejected, which the router does not
observe. -/
inductive Signal where
  | done : Signal
  | next : Signal
  | nextErr (e : JsVal) : Signal
  | unhandled (e : JsVal) : Signal

/-- The handler of lines 65-67: `res.sendFile` of `dist/index.html`. -/
def spaFallbackHandler (site : Site) (res : Res) : Res × Signal :=
  match site.entry with
  | some bytes => (res.sendFile bytes, Signal.done)
  | none => (res, Signal.nextErr enoent)

/-- The middleware of lines 70-73. -/
def errorMiddleware (err : JsVal) (w : World) (res : Res) : Run :=
  match getProp err "stack" with
  | .error e => ⟨w, res, some e⟩
  | .ok stack =>
    let w1 : World := { w with log := w.log ++ [[stack]] }
    let res1 := res.status (num 500)
    match res1.json (obj [("error", str "Something went wrong!")]) with
    | .error e => ⟨w1, res1, some e⟩
    | .ok res2 => ⟨w1, res2, none⟩

/-! ## The application: layers in registration order -/

/-- Request methods the server has routes for. -/
inductive Method where
  | GET : Method
  | POST : Method
  deriving DecidableEq

/-- A request after body parsing, without conditional or range headers.
`path` is the path of the URL, without the query string.  A request whose
body the parsers reject is not represented. -/
structure Request where
  method : Method
  path : String
  body : JsVal

/-- A string with its ASCII capitals made small. -/
def lowerAscii (s : String) : String :=
  ⟨s.data.map Char.toLower⟩

/-- Whether a request path matches the route path `/api/analyze`: routing
ignores the case of letters and accepts one trailing slash. -/
def matchesAnalyzePath (path : String) : Bool :=
  lowerAscii path == "/api/analyze" || lowerAscii path == "/api/analyze/"

/-- What the handlers close over. -/
structure Ctx where
  env : Env
  up : Upstream
  site : Site

/-- The layers of the application, by registration. -/
inductive LayerId where
  | cors : LayerId
  | jsonParser : LayerId
  | urlencodedParser : LayerId
  | static : LayerId
  | analyze : LayerId
  | spaFallback : LayerId
  | errorHandler : LayerId
  deriving DecidableEq

/-- Whether a layer is an error-handling middleware (a function of four
arguments): the router calls those only while an error is pending, and the
others only while none is. -/
def LayerId.handlesError : LayerId → Bool
  | LayerId.errorHandler => true
  | _ => false

/-- Method and path matching of each layer: `app.use` layers match every
request, `app.post('/api/analyze')` matches that path for `POST`, and
`app.get('*')` matches every path for `GET`. -/
def LayerId.matches (req : Request) : LayerId → Bool
  | LayerId.analyze => decide (req.method = Method.POST) && matchesAnalyzePath req.path
  | LayerId.spaFallback => decide (req.method = Method.GET)
  | _ => true

/-- The end of a synchronous middleware as a signal: the router catches a
thrown value and passes it on as an error. -/
def Run.signal (r : Run) : Signal :=
  match r.thrown with
  | none => Signal.done
  | some e => Signal.nextErr e

/-- The end of an `async` route handler as a signal: a thrown value rejects
the promise the handler returned, which the router ignores. -/
def Run.asyncSignal (r : Run) : Signal :=
  match r.thrown with
  | none => Signal.done
  | some e => Signal.unhandled e

/-- Run one layer.  `err` is the pending error, read by the error handler
only.  `cors()` and the two body parsers pass the request on; the request
carries the body they parsed. -/
def LayerId.run (ctx : Ctx) (err : JsVal) (req : Request) (w : World) (res : Res) :
    LayerId → World × Res × Signal
  | LayerId.cors => (w, res, Signal.next)
  | LayerId.jsonParser => (w, res, Signal.next)
  | LayerId.urlencodedParser => (w, res, Signal.next)
  | LayerId.static =>
    match req.method with
    | Method.POST => (w, res, Signal.next)
    | Method.GET =>
      match staticResolve ctx.site req.path with
      | StaticResult.file bytes => (w, res.sendFile bytes, Signal.done)
      | StaticResult.redirect => (w, res.replied (num 301) Body.redirect, Signal.done)
      | StaticResult.pass => (w, res, Signal.next)
  | LayerId.analyze =>
    let r := analyzeHandler ctx.env ctx.up req.body w res
    (r.world, r.res, r.asyncSignal)
  | LayerId.spaFallback =>
    let r := spaFallbackHandler ctx.site res
    (w, r.1, r.2)
  | LayerId.errorHandler =>
    let r := errorMiddleware err w res
    (r.world, r.res, r.signal)

/-- The result of routing one request. -/
structure Served where
  world : World
  res : Res
  /-- The layers that ran, in order. -/
  trace : List LayerId
  /-- The error still pending when the layers were exhausted. -/
  pending : Option JsVal
  /-- Whether the layers were exhausted without an answer (the request then
  falls to the final handler of Express). -/
  fellThrough : Bool
  /-- The value an `async` handler rejected with, which nothing handles. -/
  unhandled : Option JsVal

/-- The router: walk the layers in order, skipping those that do not match
and those of the wrong kind for the pending error.  An error passed on is
pending only when it is truthy.  After a rejected `async` handler no later
layer runs. -/
def dispatch (ctx : Ctx) (req : Request) :
    List LayerId → Option JsVal → World → Res → List LayerId → Served
  | [], pending, w, res, trace => ⟨w, res, trace, pending, true, none⟩
  | l :: ls, pending, w, res, trace =>
    if l.matches req && (l.handlesError == pending.isSome) then
      match l.run ctx (pending.getD undefined) req w res with
      | (w1, res1, Signal.done) => ⟨w1, res1, trace ++ [l], none, false, none⟩
      | (w1, res1, Signal.unhandled e) => ⟨w1, res1, trace ++ [l], none, false, some e⟩
      | (w1, res1, Signal.next) => dispatch ctx req ls none w1 res1 (trace ++ [l])
      | (w1, res1, Signal.nextErr e) =>
        dispatch ctx req ls (if e.truthy then some e else none) w1 res1 (trace ++ [l])
    else dispatch ctx req ls pending w res trace

/-- The layers in the order of lines 11-13, 16, 19, 65 and 70. -/
def app : List LayerId :=
  [LayerId.cors, LayerId.jsonParser, LayerId.urlencodedParser, LayerId.static,
   LayerId.analyze, LayerId.spaFallback, LayerId.errorHandler]

/-- Handle one request: a fresh `res`, no pending error, all layers. -/
def serve (ctx : Ctx) (req : Request) (w : World) : Served :=
  dispatch ctx req app none w Res.fresh []

/-! ## The response shape documented for the upstream service -/

/-- Own field `k` of an object; `none` for anything else. -/
def field (k : String) : JsVal → Option JsVal
  | obj fields => lookup k fields
  | _ => none

/-- First element of a non-empty array; `none` for anything else. -/
def first : JsVal → Option JsVal
  | arr (x :: _) => some x
  | _ => none

/-- The text of a response body of the documented shape
`{ output: { choices: [{ message: { content: [{ text }] } }] } }`:
`output.choices` a non-empty list, its first element an object whose
`message.content` is a non-empty list, whose first element is an object
with a `text` field. -/
def documentedText (data : JsVal) : Option JsVal := do
  let output ← field "output" data
  let choices ← field "choices" output
  let choice ← first choices
  let message ← field "message" choice
  let content ← field "content" message
  let item ← first content
  field "text" item

/-! ## Sample values -/

/-- An upstream whose every call settles the same way. -/
def constUpstream (o : Outcome) : Upstream := fun _ _ => o

/-- A bundle with no assets and a two-byte entry document. -/
def sampleSite : Site := ⟨fun _ => none, some [60, 62]⟩

/-- A response body of the documented shape with the given text. -/
def sampleData (t : JsVal) : JsVal :=
  obj [("output", obj [("choices", arr [obj [("message",
    obj [("content", arr [obj [("text", t)]])])]])])]

/-- An image payload. -/
def sampleImage : JsVal := str "data:image/png;base64,AAAA"

/-- A parsed request body carrying the image. -/
def sampleImageBody : JsVal := obj [("image", sampleImage)]

/-- A `POST /api/analyze` carrying the image. -/
def sampleRequest : Request := ⟨Method.POST, "/api/analyze", sampleImageBody⟩

/-- An upstream that fails the first call and answers the second. -/
def flakyUpstream : Upstream := fun n _ =>
  match n with
  | 0 => Outcome.rejected (axiosErrorNoResponse "socket hang up")
  | _ => Outcome.resolved (axiosResponse 200 (sampleData (str "an apple")))

/-- A bundle as the build lays it out: the entry document, the directory
`assets` and one script in it. -/
def bundleSite : Site :=
  ⟨fun p =>
    if p = "/index.html" then some (DiskEntry.file [60, 104, 62])
    else if p = "/assets" then some DiskEntry.dir
    else if p = "/assets/index.js" then some (DiskEntry.file [47, 47])
    else none,
   some [60, 104, 62]⟩

/-! ## Lemmas on property reads -/

theorem getProp_error {v : JsVal} {k : String} {e : JsVal}
    (h : getProp v k = .error e) : e = typeError k := by
  cases v <;> simp [getProp] at h <;> exact h.symm

theorem getIndex0_error {v e : JsVal}
    (h : getIndex0 v = .error e) : e = typeError "0" := by
  cases v <;> simp [getIndex0] at h <;> exact h.symm

theorem getProp_of_not_nullish {v : JsVal} (k : String) (h : v.isNullish = false) :
    ∃ x, getProp v k = .ok x := by
  cases v <;> simp [getProp, isNullish] at h ⊢

theorem getProp_of_field {v x : JsVal} {k : String} (h : field k v = some x) :
    getProp v k = .ok x := by
  cases v <;> simp [field] at h
  simp [getProp, h]

theorem getIndex0_of_first {v x : JsVal} (h : first v = some x) :
    getIndex0 v = .ok x := by
  cases v with
  | arr items =>
    cases items with
    | nil => simp [first] at h
    | cons y ys => simp [first] at h; simp [getIndex0, h]
  | _ => simp [first] at h

theorem extractText_error {r e : JsVal} (h : extractText r = .error e) :
    ∃ k, e = typeError k := by
  unfold extractText at h
  simp only [bind, Except.bind] at h
  repeat' split at h
  all_goals first
    | exact ⟨_, getProp_error h⟩
    | (cases h; exact ⟨_, getProp_error (by assumption)⟩)
    | (cases h; exact ⟨_, getIndex0_error (by assumption)⟩)

theorem extractText_of_documented {response data t : JsVal}
    (hdata : field "data" response = some data) (hshape : documentedText data = some t) :
    extractText response = .ok t := by
  unfold documentedText at hshape
  simp only [bind, Option.bind_eq_some] at hshape
  obtain ⟨output, h1, choices, h2, choice, h3, message, h4, content, h5, item, h6, h7⟩ := hshape
  simp [extractText, bind, Except.bind, getProp_of_field hdata, getProp_of_field h1,
    getProp_of_field h2, getIndex0_of_first h3, getProp_of_field h4, getProp_of_field h5,
    getIndex0_of_first h6, getProp_of_field h7]

theorem isNullish_of_field {v x : JsVal} {k : String} (h : field k v = some x) :
    v.isNullish = false := by
  cases v <;> simp [field] at h
  rfl

theorem getProp_of_field_none {v : JsVal} {k : String} (hv : v.isNullish = false)
    (h : field k v = none) : getProp v k = .ok undefined := by
  cases v <;> simp [field, isNullish] at h hv
  all_goals simp [getProp, h]

theorem optChain_of_field {v x : JsVal} {k : String} (h : field k v = some x) :
    optChain v k = .ok x := by
  simp [optChain, isNullish_of_field h, getProp_of_field h]

theorem isNullish_of_truthy {v : JsVal} (h : v.truthy = true) : v.isNullish = false := by
  cases v <;> simp [truthy] at h <;> rfl

/-! ## Lemmas on writing the response -/

theorem sendable_of_sendsBody {status : JsVal} (h : sendsBody status = true) :
    sendable status = true := by
  simp [sendsBody] at h
  exact h.1

theorem bodiless_of_sendsBody {status : JsVal} (h : sendsBody status = true) :
    bodiless status = false := by
  simp [sendsBody] at h
  exact h.2

theorem truthy_of_sendable {status : JsVal} (h : sendable status = true) :
    status.truthy = true := by
  cases status with
  | num n =>
    simp [sendable] at h
    simp [truthy]
    omega
  | _ => simp [sendable] at h

/-- With a status code that carries a body, `res.status(s).json(v)` sends
one response with that status and the JSON body. -/
theorem json_of_sendsBody (res : Res) {status : JsVal} (v : JsVal)
    (h : sendsBody status = true) :
    (res.status status).json v = .ok (res.replied status (Body.json v)) := by
  simp [Res.json, Res.status, Res.replied, sendable_of_sendsBody h, bodiless_of_sendsBody h]

theorem sendsBody_200 : sendsBody (num 200) = true := by decide

theorem sendsBody_500 : sendsBody (num 500) = true := by decide

/-! ## Lemmas on the `catch` block -/

theorem analyzeCatch_typeError (k : String) (w : World) (res : Res) :
    analyzeCatch (typeError k) w res =
      ⟨{ w with log := w.log ++ [[str "API Error:",
            str ("Cannot read properties of undefined or null: " ++ k)]] },
        res.replied (num 500) (Body.json (obj [("error", str "Internal Server Error")])),
        none⟩ := by
  simp [analyzeCatch, catchLogArg, catchStatus, catchErrorField, typeError, getProp, lookup,
    optChain, isNullish, truthy, bind, Except.bind, pure, Except.pure,
    json_of_sendsBody _ _ sendsBody_500]

/-- On an error that is not `null` or `undefined` and whose status, after
`|| 500`, carries a body, the `catch` block returns normally, having made no
call and sent one body whose only key is `error`, with a truthy value. -/
theorem analyzeCatch_of_sendsBody {error status : JsVal} (h : error.isNullish = false)
    (hs : catchStatus error = .ok status) (hb : sendsBody status = true)
    (w : World) (res : Res) :
    ∃ logged value,
      analyzeCatch error w res =
        ⟨{ w with log := w.log ++ [[str "API Error:", logged]] },
          res.replied status (Body.json (obj [("error", value)])), none⟩ ∧
      value.truthy = true := by
  obtain ⟨response, hr⟩ := getProp_of_not_nullish "response" h
  obtain ⟨message, hm⟩ := getProp_of_not_nullish "message" h
  by_cases hn : response.isNullish = true
  · refine ⟨message, str "Internal Server Error", ?_, by decide⟩
    simp [analyzeCatch, catchLogArg, catchErrorField, hs, hr, hm, optChain, hn,
      truthy, bind, Except.bind, pure, Except.pure, json_of_sendsBody _ _ hb]
  · have hn' : response.isNullish = false := by simpa using hn
    obtain ⟨data, hd⟩ := getProp_of_not_nullish "data" hn'
    refine ⟨if data.truthy then data else message,
      if data.truthy then data else str "Internal Server Error", ?_, ?_⟩
    · by_cases hdt : data.truthy = true <;>
        simp [analyzeCatch, catchLogArg, catchErrorField, hs, hr, hm, hd, optChain,
          hn', hdt, bind, Except.bind, pure, Except.pure, json_of_sendsBody _ _ hb]
    · by_cases hdt : data.truthy = true
      · rw [if_pos hdt]; exact hdt
      · rw [if_neg hdt]; rfl

/-- The status the `catch` block sets for an error that carries a response
with a truthy status. -/
theorem catchStatus_with_response {error resp status : JsVal}
    (hresp : field "response" error = some resp)
    (hstatus : field "status" resp = some status) (hs : status.truthy = true) :
    catchStatus error = .ok status := by
  simp [catchStatus, getProp_of_field hresp, optChain_of_field hstatus, hs, bind, Except.bind,
    pure, Except.pure]

/-- The status the `catch` block sets for an error without a response. -/
theorem catchStatus_no_response {error : JsVal} (hv : error.isNullish = false)
    (hresp : field "response" error = none) :
    catchStatus error = .ok (num 500) := by
  simp [catchStatus, getProp_of_field_none hv hresp, optChain, isNullish, truthy, bind,
    Except.bind, pure, Except.pure]

/-- The `catch` block on an error that carries a response with a body and a
status that carries a body. -/
theorem analyzeCatch_with_response {error resp status d : JsVal}
    (hresp : field "response" error = some resp)
    (hstatus : field "status" resp = some status) (hd : field "data" resp = some d)
    (hb : sendsBody status = true) (w : World) (res : Res) :
    ∃ logged, analyzeCatch error w res =
      ⟨{ w with log := w.log ++ [[str "API Error:", logged]] },
        res.replied status (Body.json
          (obj [("error", if d.truthy then d else str "Internal Server Error")])), none⟩ := by
  obtain ⟨message, hm⟩ := getProp_of_not_nullish "message" (isNullish_of_field hresp)
  have hs := catchStatus_with_response hresp hstatus
    (truthy_of_sendable (sendable_of_sendsBody hb))
  refine ⟨if d.truthy then d else message, ?_⟩
  by_cases hdt : d.truthy = true <;>
    simp [analyzeCatch, catchLogArg, catchErrorField, hs, getProp_of_field hresp,
      optChain_of_field hd, hm, hdt, bind, Except.bind, pure,
      Except.pure, json_of_sendsBody _ _ hb]

/-- The `catch` block on an error that has no `response`. -/
theorem analyzeCatch_no_response {error : JsVal} (hv : error.isNullish = false)
    (hresp : field "response" error = none) (w : World) (res : Res) :
    ∃ logged, analyzeCatch error w res =
      ⟨{ w with log := w.log ++ [[str "API Error:", logged]] },
        res.replied (num 500) (Body.json (obj [("error", str "Internal Server Error")])),
        none⟩ := by
  obtain ⟨message, hm⟩ := getProp_of_not_nullish "message" hv
  refine ⟨message, ?_⟩
  simp [analyzeCatch, catchLogArg, catchErrorField, catchStatus_no_response hv hresp,
    getProp_of_field_none hv hresp, optChain, isNullish, truthy, hm, bind, Except.bind, pure,
    Except.pure, json_of_sendsBody _ _ sendsBody_500]

/-- The `catch` block makes no outbound call. -/
theorem analyzeCatch_calls (error : JsVal) (w : World) (res : Res) :
    (analyzeCatch error w res).world.calls = w.calls := by
  unfold analyzeCatch
  repeat' split
  all_goals first
    | rfl
    | (dsimp only; split <;> rfl)

/-- What the `catch` block does to `res` and whether it throws do not depend
on the calls made or the lines logged so far. -/
theorem analyzeCatch_res_congr (error : JsVal) (w1 w2 : World) (res : Res) :
    (analyzeCatch error w1 res).res = (analyzeCatch error w2 res).res ∧
      (analyzeCatch error w1 res).thrown = (analyzeCatch error w2 res).thrown := by
  unfold analyzeCatch
  repeat' split
  all_goals first
    | exact ⟨rfl, rfl⟩
    | (dsimp only; split <;> exact ⟨rfl, rfl⟩)

/-- The error middleware makes no outbound call. -/
theorem errorMiddleware_calls (err : JsVal) (w : World) (res : Res) :
    (errorMiddleware err w res).world.calls = w.calls := by
  unfold errorMiddleware
  repeat' split
  all_goals rfl

/-- On an error that is not `null` or `undefined` the error middleware logs
the stack and sends the fixed 500 response. -/
theorem errorMiddleware_of_not_nullish {err : JsVal} (h : err.isNullish = false)
    (w : World) (res : Res) :
    ∃ stack, errorMiddleware err w res =
      ⟨{ w with log := w.log ++ [[stack]] },
        res.replied (num 500) (Body.json (obj [("error", str "Something went wrong!")])),
        none⟩ := by
  obtain ⟨stack, hs⟩ := getProp_of_not_nullish "stack" h
  exact ⟨stack, by simp [errorMiddleware, hs, json_of_sendsBody _ _ sendsBody_500]⟩

/-! ## Lemmas on the handler and on routing -/

/-- The handler on a fresh `res` when the image read succeeds and the call
resolves with a response whose text can be read. -/
theorem analyzeHandler_resolved_ok {env : Env} {up : Upstream} {body image response text : JsVal}
    {w : World}
    (hbody : getProp body "image" = .ok image)
    (hup : up w.calls.length (outboundCall env image) = Outcome.resolved response)
    (htext : extractText response = .ok text) :
    analyzeHandler env up body w Res.fresh =
      ⟨{ w with calls := w.calls ++ [outboundCall env image] },
        Res.fresh.replied (num 200)
          (Body.json (obj [("success", bool true), ("result", text)])), none⟩ := by
  have hj : Res.fresh.json (obj [("success", bool true), ("result", text)]) =
      .ok (Res.fresh.replied (num 200)
        (Body.json (obj [("success", bool true), ("result", text)]))) :=
    json_of_sendsBody Res.fresh _ sendsBody_200
  simp [analyzeHandler, analyzeTry, hbody, hup, htext, hj]

/-- The handler when the call resolves and reading the text throws: the
`catch` block runs on the thrown value. -/
theorem analyzeHandler_resolved_error {env : Env} {up : Upstream} {body image response e : JsVal}
    {w : World} (res : Res)
    (hbody : getProp body "image" = .ok image)
    (hup : up w.calls.length (outboundCall env image) = Outcome.resolved response)
    (htext : extractText response = .error e) :
    analyzeHandler env up body w res =
      analyzeCatch e { w with calls := w.calls ++ [outboundCall env image] } res := by
  simp [analyzeHandler, analyzeTry, hbody, hup, htext]

/-- The handler when the call is rejected: the `catch` block runs on the
rejection. -/
theorem analyzeHandler_rejected {env : Env} {up : Upstream} {body image error : JsVal}
    {w : World} (res : Res)
    (hbody : getProp body "image" = .ok image)
    (hup : up w.calls.length (outboundCall env image) = Outcome.rejected error) :
    analyzeHandler env up body w res =
      analyzeCatch error { w with calls := w.calls ++ [outboundCall env image] } res := by
  simp [analyzeHandler, analyzeTry, hbody, hup]

/-- The handler when reading `req.body.image` throws: no call is made and the
`catch` block runs on the `TypeError`. -/
theorem analyzeHandler_body_error {env : Env} {up : Upstream} {body e : JsVal}
    {w : World} (res : Res) (hbody : getProp body "image" = .error e) :
    analyzeHandler env up body w res = analyzeCatch e w res := by
  simp [analyzeHandler, analyzeTry, hbody]

theorem matchesAnalyzePath_literal : matchesAnalyzePath "/api/analyze" = true := by decide

/-- A `POST` on a path of the route, whose handler returns normally, is
answered by the handler: the layers that ran end with the route, nothing is
pending and nothing is unhandled. -/
theorem serve_post_of_returned (ctx : Ctx) {path : String} (body : JsVal) (w : World)
    (hp : matchesAnalyzePath path = true)
    (h : (analyzeHandler ctx.env ctx.up body w Res.fresh).thrown = none) :
    serve ctx ⟨Method.POST, path, body⟩ w =
      ⟨(analyzeHandler ctx.env ctx.up body w Res.fresh).world,
        (analyzeHandler ctx.env ctx.up body w Res.fresh).res,
        [LayerId.cors, LayerId.jsonParser, LayerId.urlencodedParser, LayerId.static,
          LayerId.analyze], none, false, none⟩ := by
  simp [serve, app, dispatch, LayerId.matches, LayerId.handlesError, LayerId.run,
    Run.asyncSignal, h, hp]

/-- A `POST` on a path of the route whose handler throws is left unanswered
by the router: no later layer runs, the error middleware included. -/
theorem serve_post_of_thrown (ctx : Ctx) {path : String} (body : JsVal) (w : World) {e : JsVal}
    (hp : matchesAnalyzePath path = true)
    (h : (analyzeHandler ctx.env ctx.up body w Res.fresh).thrown = some e) :
    serve ctx ⟨Method.POST, path, body⟩ w =
      ⟨(analyzeHandler ctx.env ctx.up body w Res.fresh).world,
        (analyzeHandler ctx.env ctx.up body w Res.fresh).res,
        [LayerId.cors, LayerId.jsonParser, LayerId.urlencodedParser, LayerId.static,
          LayerId.analyze], none, false, some e⟩ := by
  simp [serve, app, dispatch, LayerId.matches, LayerId.handlesError, LayerId.run,
    Run.asyncSignal, h, hp]

/-- The special case of the literal path `/api/analyze`. -/
theorem serve_analyze_of_returned (ctx : Ctx) (body : JsVal) (w : World)
    (h : (analyzeHandler ctx.env ctx.up body w Res.fresh).thrown = none) :
    serve ctx ⟨Method.POST, "/api/analyze", body⟩ w =
      ⟨(analyzeHandler ctx.env ctx.up body w Res.fresh).world,
        (analyzeHandler ctx.env ctx.up body w Res.fresh).res,
        [LayerId.cors, LayerId.jsonParser, LayerId.urlencodedParser, LayerId.static,
          LayerId.analyze], none, false, none⟩ :=
  serve_post_of_returned ctx body w matchesAnalyzePath_literal h

/-- A `GET` request never reaches the `POST` route: it is answered by the
static middleware with a file or a redirect, else by the wildcard route. -/
theorem serve_get (ctx : Ctx) (path : String) (body : JsVal) (w : World) :
    serve ctx ⟨Method.GET, path, body⟩ w =
      match staticResolve ctx.site path with
      | StaticResult.file bytes =>
        ⟨w, Res.fresh.sendFile bytes,
          [LayerId.cors, LayerId.jsonParser, LayerId.urlencodedParser, LayerId.static],
          none, false, none⟩
      | StaticResult.redirect =>
        ⟨w, Res.fresh.replied (num 301) Body.redirect,
          [LayerId.cors, LayerId.jsonParser, LayerId.urlencodedParser, LayerId.static],
          none, false, none⟩
      | StaticResult.pass =>
        match ctx.site.entry with
        | some doc =>
          ⟨w, Res.fresh.sendFile doc,
            [LayerId.cors, LayerId.jsonParser, LayerId.urlencodedParser, LayerId.static,
              LayerId.spaFallback], none, false, none⟩
        | none =>
          ⟨{ w with log := w.log ++ [[str "Error: ENOENT: no such file or directory"]] },
            Res.fresh.replied (num 500)
              (Body.json (obj [("error", str "Something went wrong!")])),
            [LayerId.cors, LayerId.jsonParser, LayerId.urlencodedParser, LayerId.static,
              LayerId.spaFallback, LayerId.errorHandler], none, false, none⟩ := by
  cases ha : staticResolve ctx.site path with
  | file bytes =>
    simp [serve, app, dispatch, LayerId.matches, LayerId.handlesError, LayerId.run, ha]
  | redirect =>
    simp [serve, app, dispatch, LayerId.matches, LayerId.handlesError, LayerId.run, ha]
  | pass =>
    cases he : ctx.site.entry with
    | some doc =>
      simp [serve, app, dispatch, LayerId.matches, LayerId.handlesError, LayerId.run, ha, he,
        spaFallbackHandler]
    | none =>
      simp [serve, app, dispatch, LayerId.matches, LayerId.handlesError, LayerId.run, ha, he,
        spaFallbackHandler, enoent, truthy, errorMiddleware, getProp, lookup, Run.signal,
        json_of_sendsBody _ _ sendsBody_500]

/-- Once `req.body.image` has been read the handler makes exactly one call,
with the payload and headers of lines 24-50, however the call settles. -/
theorem analyzeHandler_calls {env : Env} (up : Upstream) {body image : JsVal}
    (w : World) (res : Res) (hbody : getProp body "image" = .ok image) :
    (analyzeHandler env up body w res).world.calls = w.calls ++ [outboundCall env image] := by
  cases hup : up w.calls.length (outboundCall env image) with
  | rejected error => rw [analyzeHandler_rejected res hbody hup, analyzeCatch_calls]
  | resolved response =>
    cases htext : extractText response with
    | error e => rw [analyzeHandler_resolved_error res hbody hup htext, analyzeCatch_calls]
    | ok text =>
      cases hj : res.json (obj [("success", bool true), ("result", text)]) with
      | ok res1 => simp [analyzeHandler, analyzeTry, hbody, hup, htext, hj]
      | error e =>
        simp [analyzeHandler, analyzeTry, hbody, hup, htext, hj, analyzeCatch_calls]

/-- Routing a `POST` on a path of the route makes the calls of the handler
and no others. -/
theorem serve_post_calls (ctx : Ctx) {path : String} (body : JsVal) (w : World)
    (hp : matchesAnalyzePath path = true) :
    (serve ctx ⟨Method.POST, path, body⟩ w).world.calls =
      (analyzeHandler ctx.env ctx.up body w Res.fresh).world.calls := by
  cases ht : (analyzeHandler ctx.env ctx.up body w Res.fresh).thrown with
  | none => rw [serve_post_of_returned ctx body w hp ht]
  | some e => rw [serve_post_of_thrown ctx body w hp ht]

/-- The special case of the literal path `/api/analyze`. -/
theorem serve_analyze_calls (ctx : Ctx) (body : JsVal) (w : World) :
    (serve ctx ⟨Method.POST, "/api/analyze", body⟩ w).world.calls =
      (analyzeHandler ctx.env ctx.up body w Res.fresh).world.calls :=
  serve_post_calls ctx body w matchesAnalyzePath_literal

/-- The response to a `POST /api/analyze` is determined by what the handler
did to `res` and by what it threw. -/
theorem serve_analyze_res_congr (ctx1 ctx2 : Ctx) (body : JsVal) (w1 w2 : World)
    (hres : (analyzeHandler ctx1.env ctx1.up body w1 Res.fresh).res =
      (analyzeHandler ctx2.env ctx2.up body w2 Res.fresh).res)
    (hthrown : (analyzeHandler ctx1.env ctx1.up body w1 Res.fresh).thrown =
      (analyzeHandler ctx2.env ctx2.up body w2 Res.fresh).thrown) :
    (serve ctx1 ⟨Method.POST, "/api/analyze", body⟩ w1).res =
      (serve ctx2 ⟨Method.POST, "/api/analyze", body⟩ w2).res := by
  cases ht : (analyzeHandler ctx2.env ctx2.up body w2 Res.fresh).thrown with
  | none =>
    rw [serve_analyze_of_returned ctx1 body w1 (hthrown.trans ht),
      serve_analyze_of_returned ctx2 body w2 ht]
    exact hres
  | some e =>
    rw [serve_post_of_thrown ctx1 body w1 matchesAnalyzePath_literal (hthrown.trans ht),
      serve_post_of_thrown ctx2 body w2 matchesAnalyzePath_literal ht]
    exact hres

/-- A request makes no call or one call. -/
theorem serve_calls (ctx : Ctx) (req : Request) (w : World) :
    (serve ctx req w).world.calls = w.calls ∨
      ∃ c, (serve ctx req w).world.calls = w.calls ++ [c] := by
  obtain ⟨method, path, body⟩ := req
  cases method with
  | GET =>
    left
    rw [serve_get]
    cases staticResolve ctx.site path with
    | file bytes => rfl
    | redirect => rfl
    | pass => cases ctx.site.entry <;> rfl
  | POST =>
    cases hp : matchesAnalyzePath path with
    | true =>
      rw [serve_post_calls ctx body w hp]
      cases hbody : getProp body "image" with
      | error e => left; rw [analyzeHandler_body_error Res.fresh hbody, analyzeCatch_calls]
      | ok image => right; exact ⟨_, analyzeHandler_calls ctx.up w Res.fresh hbody⟩
    | false =>
      left
      simp [serve, app, dispatch, LayerId.matches, LayerId.handlesError, LayerId.run, hp]

/-- What the handler does to `res`, and whether it throws, depend on the
upstream only through the outcome of the one call it makes. -/
theorem analyzeHandler_res_congr (env : Env) (up1 up2 : Upstream) {body image : JsVal}
    (w1 w2 : World) (res : Res) (hbody : getProp body "image" = .ok image)
    (h : up1 w1.calls.length (outboundCall env image) =
      up2 w2.calls.length (outboundCall env image)) :
    (analyzeHandler env up1 body w1 res).res = (analyzeHandler env up2 body w2 res).res ∧
      (analyzeHandler env up1 body w1 res).thrown =
        (analyzeHandler env up2 body w2 res).thrown := by
  cases h2 : up2 w2.calls.length (outboundCall env image) with
  | rejected error =>
    rw [analyzeHandler_rejected res hbody (h.trans h2), analyzeHandler_rejected res hbody h2]
    exact analyzeCatch_res_congr error _ _ res
  | resolved response =>
    cases htext : extractText response with
    | error e =>
      rw [analyzeHandler_resolved_error res hbody (h.trans h2) htext,
        analyzeHandler_resolved_error res hbody h2 htext]
      exact analyzeCatch_res_congr e _ _ res
    | ok text =>
      have h1 := h.trans h2
      cases hj : res.json (obj [("success", bool true), ("result", text)]) with
      | ok res1 => simp [analyzeHandler, analyzeTry, hbody, h1, h2, htext, hj]
      | error e =>
        simp [analyzeHandler, analyzeTry, hbody, h1, h2, htext, hj]
        exact analyzeCatch_res_congr e _ _ res

/-! ## The claims -/

/-- C1: when the upstream call resolves with a response whose data has the
documented shape with text `t`, the `POST /api/analyze` handler returns
normally and the one response has status 200 and the body
`{ success: true, result: t }`, with these two keys and no others. -/
theorem analyze_success_exact (ctx : Ctx) (body image response data t : JsVal) (w : World)
    (hbody : getProp body "image" = .ok image)
    (hup : ctx.up w.calls.length (outboundCall ctx.env image) = Outcome.resolved response)
    (hdata : field "data" response = some data)
    (hshape : documentedText data = some t) :
    (serve ctx ⟨Method.POST, "/api/analyze", body⟩ w).res.sent =
        [⟨num 200, Body.json (obj [("success", bool true), ("result", t)])⟩] ∧
      (analyzeHandler ctx.env ctx.up body w Res.fresh).thrown = none := by
  have hh := analyzeHandler_resolved_ok hbody hup
    (extractText_of_documented hdata hshape)
  have ht : (analyzeHandler ctx.env ctx.up body w Res.fresh).thrown = none := by rw [hh]
  refine ⟨?_, ht⟩
  rw [serve_analyze_of_returned ctx body w ht, hh]
  rfl

/-- C1 on a request with an image, the upstream answering with the text `an apple`. -/
theorem analyze_success_exact_witness :
    (serve ⟨⟨some "sk-1"⟩,
        constUpstream (Outcome.resolved (axiosResponse 200 (sampleData (str "an apple")))),
        sampleSite⟩
      ⟨Method.POST, "/api/analyze", obj [("image", str "data:image/png;base64,AAAA")]⟩
      ⟨[], []⟩).res.sent =
        [⟨num 200, Body.json (obj [("success", bool true), ("result", str "an apple")])⟩] ∧
      (analyzeHandler (⟨some "sk-1"⟩ : Env)
        (constUpstream (Outcome.resolved (axiosResponse 200 (sampleData (str "an apple")))))
        (obj [("image", str "data:image/png;base64,AAAA")]) ⟨[], []⟩ Res.fresh).thrown = none :=
  analyze_success_exact
    ⟨⟨some "sk-1"⟩,
      constUpstream (Outcome.resolved (axiosResponse 200 (sampleData (str "an apple")))),
      sampleSite⟩
    (obj [("image", str "data:image/png;base64,AAAA")]) (str "data:image/png;base64,AAAA")
    (axiosResponse 200 (sampleData (str "an apple"))) (sampleData (str "an apple"))
    (str "an apple") ⟨[], []⟩ rfl rfl rfl rfl

/-- C2 (as stated, refuted): an upstream failure with status 502 and an empty
body is not propagated unchanged; the client receives status 502 with the
body `{ error: 'Internal Server Error' }`, not `{ error: '' }`. -/
theorem upstream_error_empty_body_replaced :
    (serve ⟨⟨some "sk-1"⟩,
        constUpstream (Outcome.rejected
          (axiosErrorWithResponse "Request failed with status code 502" 502 (str ""))),
        sampleSite⟩ sampleRequest ⟨[], []⟩).res.sent =
        [⟨num 502, Body.json (obj [("error", str "Internal Server Error")])⟩] ∧
      (serve ⟨⟨some "sk-1"⟩,
        constUpstream (Outcome.rejected
          (axiosErrorWithResponse "Request failed with status code 502" 502 (str ""))),
        sampleSite⟩ sampleRequest ⟨[], []⟩).res.sent ≠
        [⟨num 502, Body.json (obj [("error", str "")])⟩] := by
  have h : (serve ⟨⟨some "sk-1"⟩,
        constUpstream (Outcome.rejected
          (axiosErrorWithResponse "Request failed with status code 502" 502 (str ""))),
        sampleSite⟩ sampleRequest ⟨[], []⟩).res.sent =
        [⟨num 502, Body.json (obj [("error", str "Internal Server Error")])⟩] := rfl
  refine ⟨h, ?_⟩
  rw [h]
  simp

/-- C2 (amended): for an upstream failure that carries a response with body
`d` and a status `s` that carries a body (an integer from 200 to 999 other
than 204, 205 and 304), the handler responds with status `s`; the body is
`{ error: d }` when `d` is truthy and `{ error: 'Internal Server Error' }`
when `d` is falsy. -/
theorem upstream_error_propagated (ctx : Ctx) (body image error resp status d : JsVal)
    (w : World)
    (hbody : getProp body "image" = .ok image)
    (hup : ctx.up w.calls.length (outboundCall ctx.env image) = Outcome.rejected error)
    (hresp : field "response" error = some resp)
    (hstatus : field "status" resp = some status)
    (hd : field "data" resp = some d)
    (hs : sendsBody status = true) :
    (serve ctx ⟨Method.POST, "/api/analyze", body⟩ w).res.sent =
      [⟨status, Body.json
        (obj [("error", if d.truthy then d else str "Internal Server Error")])⟩] := by
  obtain ⟨logged, hc⟩ := analyzeCatch_with_response hresp hstatus hd hs
    { w with calls := w.calls ++ [outboundCall ctx.env image] } Res.fresh
  have hh := (analyzeHandler_rejected Res.fresh hbody hup).trans hc
  have ht : (analyzeHandler ctx.env ctx.up body w Res.fresh).thrown = none := by rw [hh]
  rw [serve_analyze_of_returned ctx body w ht, hh]
  rfl

/-- C2 (amended) on the upstream failure 429 with body `{ message: "rate limited" }`. -/
theorem upstream_error_propagated_witness :
    (serve ⟨⟨some "sk-1"⟩,
        constUpstream (Outcome.rejected
          (axiosErrorWithResponse "Request failed with status code 429" 429
            (obj [("message", str "rate limited")]))),
        sampleSite⟩ sampleRequest ⟨[], []⟩).res.sent =
      [⟨num 429, Body.json
        (obj [("error", if (obj [("message", str "rate limited")]).truthy
          then obj [("message", str "rate limited")] else str "Internal Server Error")])⟩] :=
  upstream_error_propagated
    ⟨⟨some "sk-1"⟩,
      constUpstream (Outcome.rejected
        (axiosErrorWithResponse "Request failed with status code 429" 429
          (obj [("message", str "rate limited")]))),
      sampleSite⟩
    sampleImageBody sampleImage
    (axiosErrorWithResponse "Request failed with status code 429" 429
      (obj [("message", str "rate limited")]))
    (axiosResponse 429 (obj [("message", str "rate limited")]))
    (num 429) (obj [("message", str "rate limited")]) ⟨[], []⟩ rfl rfl rfl rfl rfl rfl

/-- C3 (as stated, refuted): when the upstream resolves with an empty
`choices` array the client receives `{ error: 'Internal Server Error' }` from
the `catch` block of the handler, not `{ error: 'Something went wrong!' }`,
and the error middleware does not run. -/
theorem malformed_success_not_fallback :
    (serve ⟨⟨some "sk-1"⟩,
        constUpstream (Outcome.resolved
          (axiosResponse 200 (obj [("output", obj [("choices", arr [])])]))),
        sampleSite⟩ sampleRequest ⟨[], []⟩).res.sent =
        [⟨num 500, Body.json (obj [("error", str "Internal Server Error")])⟩] ∧
      (serve ⟨⟨some "sk-1"⟩,
        constUpstream (Outcome.resolved
          (axiosResponse 200 (obj [("output", obj [("choices", arr [])])]))),
        sampleSite⟩ sampleRequest ⟨[], []⟩).res.sent ≠
        [⟨num 500, Body.json (obj [("error", str "Something went wrong!")])⟩] ∧
      LayerId.errorHandler ∉ (serve ⟨⟨some "sk-1"⟩,
        constUpstream (Outcome.resolved
          (axiosResponse 200 (obj [("output", obj [("choices", arr [])])]))),
        sampleSite⟩ sampleRequest ⟨[], []⟩).trace := by
  have h : (serve ⟨⟨some "sk-1"⟩,
        constUpstream (Outcome.resolved
          (axiosResponse 200 (obj [("output", obj [("choices", arr [])])]))),
        sampleSite⟩ sampleRequest ⟨[], []⟩).res.sent =
        [⟨num 500, Body.json (obj [("error", str "Internal Server Error")])⟩] := rfl
  have ht : (serve ⟨⟨some "sk-1"⟩,
        constUpstream (Outcome.resolved
          (axiosResponse 200 (obj [("output", obj [("choices", arr [])])]))),
        sampleSite⟩ sampleRequest ⟨[], []⟩).trace =
        [LayerId.cors, LayerId.jsonParser, LayerId.urlencodedParser, LayerId.static,
          LayerId.analyze] := rfl
  refine ⟨h, ?_, ?_⟩
  · rw [h]; simp
  · rw [ht]; decide

/-- C3 (amended): when the upstream call resolves and reading
`output.choices[0].message.content[0].text` throws, the `catch` block of the
handler handles it: the handler returns normally, the error middleware does
not run, and the client receives status 500 with the body
`{ error: 'Internal Server Error' }`. -/
theorem malformed_success_caught_by_handler (ctx : Ctx) (body image response e : JsVal)
    (w : World)
    (hbody : getProp body "image" = .ok image)
    (hup : ctx.up w.calls.length (outboundCall ctx.env image) = Outcome.resolved response)
    (htext : extractText response = .error e) :
    (serve ctx ⟨Method.POST, "/api/analyze", body⟩ w).res.sent =
        [⟨num 500, Body.json (obj [("error", str "Internal Server Error")])⟩] ∧
      (analyzeHandler ctx.env ctx.up body w Res.fresh).thrown = none ∧
      LayerId.errorHandler ∉ (serve ctx ⟨Method.POST, "/api/analyze", body⟩ w).trace := by
  obtain ⟨k, hk⟩ := extractText_error htext
  subst hk
  have hh := (analyzeHandler_resolved_error Res.fresh hbody hup htext).trans
    (analyzeCatch_typeError k _ _)
  have ht : (analyzeHandler ctx.env ctx.up body w Res.fresh).thrown = none := by rw [hh]
  refine ⟨?_, ht, ?_⟩
  · rw [serve_analyze_of_returned ctx body w ht, hh]
    rfl
  · rw [serve_analyze_of_returned ctx body w ht]
    simp

/-- C3 (amended) on an upstream response whose data is the empty object. -/
theorem malformed_success_caught_by_handler_witness :
    (serve ⟨⟨some "sk-1"⟩, constUpstream (Outcome.resolved (axiosResponse 200 (obj []))),
        sampleSite⟩ ⟨Method.POST, "/api/analyze", sampleImageBody⟩ ⟨[], []⟩).res.sent =
        [⟨num 500, Body.json (obj [("error", str "Internal Server Error")])⟩] ∧
      (analyzeHandler (⟨some "sk-1"⟩ : Env)
        (constUpstream (Outcome.resolved (axiosResponse 200 (obj []))))
        sampleImageBody ⟨[], []⟩ Res.fresh).thrown = none ∧
      LayerId.errorHandler ∉
        (serve ⟨⟨some "sk-1"⟩, constUpstream (Outcome.resolved (axiosResponse 200 (obj []))),
          sampleSite⟩ ⟨Method.POST, "/api/analyze", sampleImageBody⟩ ⟨[], []⟩).trace :=
  malformed_success_caught_by_handler
    ⟨⟨some "sk-1"⟩, constUpstream (Outcome.resolved (axiosResponse 200 (obj []))), sampleSite⟩
    sampleImageBody sampleImage (axiosResponse 200 (obj [])) (typeError "choices") ⟨[], []⟩
    rfl rfl rfl

/-- C4: when the upstream call fails with an error that has no `response`
field, the handler responds with status 500 and the body
`{ error: 'Internal Server Error' }`, whatever else the error carries. -/
theorem network_failure_generic_500 (ctx : Ctx) (body image error : JsVal) (w : World)
    (hbody : getProp body "image" = .ok image)
    (hup : ctx.up w.calls.length (outboundCall ctx.env image) = Outcome.rejected error)
    (hobj : error.isNullish = false)
    (hresp : field "response" error = none) :
    (serve ctx ⟨Method.POST, "/api/analyze", body⟩ w).res.sent =
      [⟨num 500, Body.json (obj [("error", str "Internal Server Error")])⟩] := by
  obtain ⟨logged, hc⟩ := analyzeCatch_no_response hobj hresp
    { w with calls := w.calls ++ [outboundCall ctx.env image] } Res.fresh
  have hh := (analyzeHandler_rejected Res.fresh hbody hup).trans hc
  have ht : (analyzeHandler ctx.env ctx.up body w Res.fresh).thrown = none := by rw [hh]
  rw [serve_analyze_of_returned ctx body w ht, hh]
  rfl

/-- C4 on a refused connection. -/
theorem network_failure_generic_500_witness :
    (serve ⟨⟨some "sk-1"⟩,
        constUpstream (Outcome.rejected (axiosErrorNoResponse "connect ECONNREFUSED")),
        sampleSite⟩ ⟨Method.POST, "/api/analyze", sampleImageBody⟩ ⟨[], []⟩).res.sent =
      [⟨num 500, Body.json (obj [("error", str "Internal Server Error")])⟩] :=
  network_failure_generic_500
    ⟨⟨some "sk-1"⟩,
      constUpstream (Outcome.rejected (axiosErrorNoResponse "connect ECONNREFUSED")),
      sampleSite⟩
    sampleImageBody sampleImage (axiosErrorNoResponse "connect ECONNREFUSED") ⟨[], []⟩
    rfl rfl rfl rfl

/-- C5: for a request body `b` on which `b.image` evaluates to `image`, the
handler submits exactly
`{ model: 'qwen-vl-plus', input: { messages: [{ role: 'user', content: [{ text: P }, { image }] }] } }`
with the one constant prompt `P`; the image is passed through unmodified, and
when `b` has no `image` field the call is still made, with `undefined` as
the image. -/
theorem analyze_payload_exact (ctx : Ctx) (body image : JsVal) (w : World)
    (hbody : getProp body "image" = .ok image) :
    (serve ctx ⟨Method.POST, "/api/analyze", body⟩ w).world.calls =
        w.calls ++ [⟨apiUrl,
          obj [("model", str "qwen-vl-plus"),
            ("input", obj [("messages", arr [
              obj [("role", str "user"),
                ("content", arr [obj [("text", str promptText)],
                  obj [("image", image)]])]])])],
          requestHeaders ctx.env⟩] ∧
      (field "image" body = none → image = undefined) := by
  refine ⟨?_, ?_⟩
  · rw [serve_analyze_calls, analyzeHandler_calls ctx.up w Res.fresh hbody]
    rfl
  · intro hnone
    have hv : body.isNullish = false := by
      cases body <;> simp [getProp] at hbody <;> rfl
    have := getProp_of_field_none hv hnone
    rw [hbody] at this
    exact Except.ok.inj this

/-- C5 on a request body that has no `image` field. -/
theorem analyze_payload_exact_witness :
    (serve ⟨⟨some "sk-1"⟩, constUpstream (Outcome.rejected (axiosErrorNoResponse "timeout")),
        sampleSite⟩ ⟨Method.POST, "/api/analyze", obj [("note", str "no image")]⟩
        ⟨[], []⟩).world.calls =
        ([] : List OutboundCall) ++ [⟨apiUrl,
          obj [("model", str "qwen-vl-plus"),
            ("input", obj [("messages", arr [
              obj [("role", str "user"),
                ("content", arr [obj [("text", str promptText)],
                  obj [("image", undefined)]])]])])],
          requestHeaders ⟨some "sk-1"⟩⟩] ∧
      (field "image" (obj [("note", str "no image")]) = none → undefined = undefined) :=
  analyze_payload_exact
    ⟨⟨some "sk-1"⟩, constUpstream (Outcome.rejected (axiosErrorNoResponse "timeout")),
      sampleSite⟩
    (obj [("note", str "no image")]) undefined ⟨[], []⟩ rfl

/-- C6: every request makes at most one call to the external API, and
nothing is cached: handling the same `POST /api/analyze` twice in sequence
makes exactly two calls with the same payload, and the second response is
the one a fresh server gives when its call settles as the second call did. -/
theorem analyze_no_cache (ctx : Ctx) (body image : JsVal) (w : World)
    (hbody : getProp body "image" = .ok image) :
    (∀ (req : Request) (w0 : World),
        (serve ctx req w0).world.calls = w0.calls ∨
          ∃ c, (serve ctx req w0).world.calls = w0.calls ++ [c]) ∧
      (serve ctx ⟨Method.POST, "/api/analyze", body⟩
          (serve ctx ⟨Method.POST, "/api/analyze", body⟩ w).world).world.calls =
        w.calls ++ [outboundCall ctx.env image, outboundCall ctx.env image] ∧
      (serve ctx ⟨Method.POST, "/api/analyze", body⟩
          (serve ctx ⟨Method.POST, "/api/analyze", body⟩ w).world).res.sent =
        (serve ⟨ctx.env,
            fun _ _ => ctx.up (w.calls.length + 1) (outboundCall ctx.env image), ctx.site⟩
          ⟨Method.POST, "/api/analyze", body⟩ ⟨[], []⟩).res.sent := by
  have h1 : (serve ctx ⟨Method.POST, "/api/analyze", body⟩ w).world.calls =
      w.calls ++ [outboundCall ctx.env image] := by
    rw [serve_analyze_calls, analyzeHandler_calls ctx.up w Res.fresh hbody]
  refine ⟨fun req w0 => serve_calls ctx req w0, ?_, ?_⟩
  · rw [serve_analyze_calls, analyzeHandler_calls ctx.up _ Res.fresh hbody, h1]
    simp
  · have hlen : (serve ctx ⟨Method.POST, "/api/analyze", body⟩ w).world.calls.length =
        w.calls.length + 1 := by rw [h1]; simp
    have hc := analyzeHandler_res_congr ctx.env ctx.up
      (fun _ _ => ctx.up (w.calls.length + 1) (outboundCall ctx.env image))
      (serve ctx ⟨Method.POST, "/api/analyze", body⟩ w).world ⟨[], []⟩ Res.fresh hbody
      (by rw [hlen])
    rw [serve_analyze_res_congr ctx
      ⟨ctx.env, fun _ _ => ctx.up (w.calls.length + 1) (outboundCall ctx.env image), ctx.site⟩
      body _ ⟨[], []⟩ hc.1 hc.2]

/-- C6 on an upstream that fails the first call and answers the second. -/
theorem analyze_no_cache_witness :
    (∀ (req : Request) (w0 : World),
        (serve ⟨⟨some "sk-1"⟩, flakyUpstream, sampleSite⟩ req w0).world.calls = w0.calls ∨
          ∃ c, (serve ⟨⟨some "sk-1"⟩, flakyUpstream, sampleSite⟩ req w0).world.calls =
            w0.calls ++ [c]) ∧
      (serve ⟨⟨some "sk-1"⟩, flakyUpstream, sampleSite⟩ ⟨Method.POST, "/api/analyze", sampleImageBody⟩
          (serve ⟨⟨some "sk-1"⟩, flakyUpstream, sampleSite⟩
            ⟨Method.POST, "/api/analyze", sampleImageBody⟩ ⟨[], []⟩).world).world.calls =
        ([] : List OutboundCall) ++
          [outboundCall ⟨some "sk-1"⟩ sampleImage, outboundCall ⟨some "sk-1"⟩ sampleImage] ∧
      (serve ⟨⟨some "sk-1"⟩, flakyUpstream, sampleSite⟩ ⟨Method.POST, "/api/analyze", sampleImageBody⟩
          (serve ⟨⟨some "sk-1"⟩, flakyUpstream, sampleSite⟩
            ⟨Method.POST, "/api/analyze", sampleImageBody⟩ ⟨[], []⟩).world).res.sent =
        (serve ⟨⟨some "sk-1"⟩,
            fun _ _ => flakyUpstream (([] : List OutboundCall).length + 1)
              (outboundCall ⟨some "sk-1"⟩ sampleImage), sampleSite⟩
          ⟨Method.POST, "/api/analyze", sampleImageBody⟩ ⟨[], []⟩).res.sent :=
  analyze_no_cache ⟨⟨some "sk-1"⟩, flakyUpstream, sampleSite⟩ sampleImageBody sampleImage
    ⟨[], []⟩ rfl

/-- C7 (as stated, refuted): an upstream failure with status 304 ends with
one response that has status 304 and no body, which is neither of the two
JSON shapes; an upstream failure with status 99 makes the `catch` block
throw a `RangeError`, and no response is sent. -/
theorem upstream_status_without_json_body :
    (serve ⟨⟨some "sk-1"⟩,
        constUpstream (Outcome.rejected
          (axiosErrorWithResponse "Request failed with status code 304" 304
            (obj [("message", str "not modified")]))),
        sampleSite⟩ sampleRequest ⟨[], []⟩).res.sent = [⟨num 304, Body.empty⟩] ∧
      (¬ ∃ status v,
        (serve ⟨⟨some "sk-1"⟩,
          constUpstream (Outcome.rejected
            (axiosErrorWithResponse "Request failed with status code 304" 304
              (obj [("message", str "not modified")]))),
          sampleSite⟩ sampleRequest ⟨[], []⟩).res.sent = [⟨status, Body.json v⟩]) ∧
      (analyzeHandler (⟨some "sk-1"⟩ : Env)
        (constUpstream (Outcome.rejected
          (axiosErrorWithResponse "Request failed with status code 99" 99 (str "teapot"))))
        sampleImageBody ⟨[], []⟩ Res.fresh).thrown = some rangeError ∧
      (serve ⟨⟨some "sk-1"⟩,
        constUpstream (Outcome.rejected
          (axiosErrorWithResponse "Request failed with status code 99" 99 (str "teapot"))),
        sampleSite⟩ sampleRequest ⟨[], []⟩).res.sent = [] := by
  have h : (serve ⟨⟨some "sk-1"⟩,
        constUpstream (Outcome.rejected
          (axiosErrorWithResponse "Request failed with status code 304" 304
            (obj [("message", str "not modified")]))),
        sampleSite⟩ sampleRequest ⟨[], []⟩).res.sent = [⟨num 304, Body.empty⟩] := rfl
  refine ⟨h, ?_, rfl, rfl⟩
  rw [h]
  rintro ⟨status, v, hv⟩
  simp at hv

/-- C7 (amended): for every request body and every outcome of the upstream
call (resolved with any response, rejected without a response, or rejected
with a response whose status, after `|| 500`, carries a body: an integer
from 200 to 999 other than 204, 205 and 304), the handler returns without
throwing and the request ends with exactly one JSON response: either status
200 with a body carrying `success: true` and no `error` key, or a body whose
only key is `error`. -/
theorem analyze_single_json_response (ctx : Ctx) (body : JsVal) (w : World)
    (hrej : ∀ n c e, ctx.up n c = Outcome.rejected e →
      e.isNullish = false ∧
        ∃ status, catchStatus e = .ok status ∧ sendsBody status = true) :
    (analyzeHandler ctx.env ctx.up body w Res.fresh).thrown = none ∧
      ∃ status v,
        (serve ctx ⟨Method.POST, "/api/analyze", body⟩ w).res.sent =
          [⟨status, Body.json v⟩] ∧
        ((status = num 200 ∧ field "success" v = some (bool true) ∧ "error" ∉ keys v) ∨
          (keys v = ["error"] ∧ wireKeys v = ["error"])) := by
  have key : ∀ (w1 : World) (res1 : Res),
      analyzeHandler ctx.env ctx.up body w Res.fresh = ⟨w1, res1, none⟩ →
      (analyzeHandler ctx.env ctx.up body w Res.fresh).thrown = none ∧
        (serve ctx ⟨Method.POST, "/api/analyze", body⟩ w).res.sent = res1.sent := by
    intro w1 res1 hh
    have ht : (analyzeHandler ctx.env ctx.up body w Res.fresh).thrown = none := by rw [hh]
    exact ⟨ht, by rw [serve_analyze_of_returned ctx body w ht, hh]⟩
  cases hbody : getProp body "image" with
  | error e =>
    have he := getProp_error hbody
    subst he
    obtain ⟨ht, hs⟩ := key _ _
      ((analyzeHandler_body_error Res.fresh hbody).trans (analyzeCatch_typeError _ _ _))
    exact ⟨ht, num 500, obj [("error", str "Internal Server Error")], hs,
      Or.inr ⟨rfl, rfl⟩⟩
  | ok image =>
    cases hup : ctx.up w.calls.length (outboundCall ctx.env image) with
    | rejected error =>
      obtain ⟨hnn, status, hst, hsb⟩ := hrej _ _ _ hup
      obtain ⟨logged, value, hc, hv⟩ :=
        analyzeCatch_of_sendsBody hnn hst hsb
          { w with calls := w.calls ++ [outboundCall ctx.env image] } Res.fresh
      obtain ⟨ht, hs⟩ := key _ _ ((analyzeHandler_rejected Res.fresh hbody hup).trans hc)
      refine ⟨ht, status, obj [("error", value)], hs, Or.inr ⟨rfl, ?_⟩⟩
      cases value <;> simp [truthy] at hv <;> rfl
    | resolved response =>
      cases htext : extractText response with
      | error e =>
        obtain ⟨k, hk⟩ := extractText_error htext
        subst hk
        obtain ⟨ht, hs⟩ := key _ _
          ((analyzeHandler_resolved_error Res.fresh hbody hup htext).trans
            (analyzeCatch_typeError _ _ _))
        exact ⟨ht, num 500, obj [("error", str "Internal Server Error")], hs,
          Or.inr ⟨rfl, rfl⟩⟩
      | ok text =>
        obtain ⟨ht, hs⟩ := key _ _ (analyzeHandler_resolved_ok hbody hup htext)
        refine ⟨ht, num 200, obj [("success", bool true), ("result", text)], hs,
          Or.inl ⟨rfl, rfl, ?_⟩⟩
        simp [keys]

/-- C7 (amended) on a request with an image and an upstream that rejects the
call with status 429. -/
theorem analyze_single_json_response_witness :
    (analyzeHandler (⟨some "sk-1"⟩ : Env)
        (constUpstream (Outcome.rejected
          (axiosErrorWithResponse "Request failed with status code 429" 429
            (obj [("message", str "rate limited")]))))
        sampleImageBody ⟨[], []⟩ Res.fresh).thrown = none ∧
      ∃ status v,
        (serve ⟨⟨some "sk-1"⟩,
            constUpstream (Outcome.rejected
              (axiosErrorWithResponse "Request failed with status code 429" 429
                (obj [("message", str "rate limited")]))),
            sampleSite⟩ ⟨Method.POST, "/api/analyze", sampleImageBody⟩ ⟨[], []⟩).res.sent =
          [⟨status, Body.json v⟩] ∧
        ((status = num 200 ∧ field "success" v = some (bool true) ∧ "error" ∉ keys v) ∨
          (keys v = ["error"] ∧ wireKeys v = ["error"])) :=
  analyze_single_json_response
    ⟨⟨some "sk-1"⟩,
      constUpstream (Outcome.rejected
        (axiosErrorWithResponse "Request failed with status code 429" 429
          (obj [("message", str "rate limited")]))),
      sampleSite⟩ sampleImageBody ⟨[], []⟩
    (fun _ _ e h => by
      simp only [constUpstream, Outcome.rejected.injEq] at h
      subst h
      exact ⟨rfl, num 429, rfl, by decide⟩)

/-- C8: for every error value passed to the error-handling middleware (never
`null` or `undefined`), whatever it carries, the middleware returns normally
and sends status 500 with the body `{ error: 'Something went wrong!' }`; the
response depends neither on the error nor on the request. -/
theorem fallback_fixed_response (err : JsVal) (w : World) (res : Res)
    (herr : err.isNullish = false) :
    (errorMiddleware err w res).res.sent =
        res.sent ++ [⟨num 500, Body.json (obj [("error", str "Something went wrong!")])⟩] ∧
      (errorMiddleware err w res).thrown = none := by
  obtain ⟨stack, hs⟩ := errorMiddleware_of_not_nullish herr w res
  rw [hs]
  exact ⟨rfl, rfl⟩

/-- C8 on an error object carrying a status and a message. -/
theorem fallback_fixed_response_witness :
    (errorMiddleware (obj [("status", num 404), ("message", str "payload too large")])
        ⟨[], []⟩ Res.fresh).res.sent =
        Res.fresh.sent ++
          [⟨num 500, Body.json (obj [("error", str "Something went wrong!")])⟩] ∧
      (errorMiddleware (obj [("status", num 404), ("message", str "payload too large")])
        ⟨[], []⟩ Res.fresh).thrown = none :=
  fallback_fixed_response (obj [("status", num 404), ("message", str "payload too large")])
    ⟨[], []⟩ Res.fresh rfl

/-- C9 (as stated, refuted): `/assets` names a directory of the bundle, not
a file, and a `GET /assets` is answered by the static middleware with a 301
redirect, not with the entry document and status 200. -/
theorem get_directory_redirected :
    bundleSite.node "/assets" = some DiskEntry.dir ∧
      (serve ⟨⟨some "sk-1"⟩, flakyUpstream, bundleSite⟩
        ⟨Method.GET, "/assets", undefined⟩ ⟨[], []⟩).res.sent =
        [⟨num 301, Body.redirect⟩] ∧
      (serve ⟨⟨some "sk-1"⟩, flakyUpstream, bundleSite⟩
        ⟨Method.GET, "/assets", undefined⟩ ⟨[], []⟩).res.sent ≠
        [⟨num 200, Body.file [60, 104, 62]⟩] := by
  have h : (serve ⟨⟨some "sk-1"⟩, flakyUpstream, bundleSite⟩
        ⟨Method.GET, "/assets", undefined⟩ ⟨[], []⟩).res.sent =
        [⟨num 301, Body.redirect⟩] := rfl
  refine ⟨rfl, h, ?_⟩
  rw [h]
  simp

/-- C9 (amended): for every `GET` path, with the entry document
`dist/index.html` present, the static middleware answers first: with the
bytes of the file it finds for the path, status 200, or with a 301 redirect
when the path names a directory and has no trailing slash; otherwise (also
for `GET /api/analyze`) the response is the entry document with status 200.
The `POST /api/analyze` route never runs for a `GET`, and no call is made. -/
theorem get_two_stage_lookup (ctx : Ctx) (path : String) (body : JsVal) (w : World)
    (doc : Bytes) (hentry : ctx.site.entry = some doc) :
    (serve ctx ⟨Method.GET, path, body⟩ w).res.sent =
        [match staticResolve ctx.site path with
          | StaticResult.file bytes => ⟨num 200, Body.file bytes⟩
          | StaticResult.redirect => ⟨num 301, Body.redirect⟩
          | StaticResult.pass => ⟨num 200, Body.file doc⟩] ∧
      LayerId.analyze ∉ (serve ctx ⟨Method.GET, path, body⟩ w).trace ∧
      (serve ctx ⟨Method.GET, path, body⟩ w).world.calls = w.calls := by
  rw [serve_get]
  cases ha : staticResolve ctx.site path with
  | file bytes => exact ⟨rfl, by simp, rfl⟩
  | redirect => exact ⟨rfl, by simp, rfl⟩
  | pass => simp [hentry, Res.sendFile, Res.fresh]

/-- C9 (amended) on `GET /api/analyze` against the bundle. -/
theorem get_two_stage_lookup_witness :
    (serve ⟨⟨some "sk-1"⟩, flakyUpstream, bundleSite⟩
        ⟨Method.GET, "/api/analyze", undefined⟩ ⟨[], []⟩).res.sent =
        [match staticResolve bundleSite "/api/analyze" with
          | StaticResult.file bytes => ⟨num 200, Body.file bytes⟩
          | StaticResult.redirect => ⟨num 301, Body.redirect⟩
          | StaticResult.pass => ⟨num 200, Body.file [60, 104, 62]⟩] ∧
      LayerId.analyze ∉ (serve ⟨⟨some "sk-1"⟩, flakyUpstream, bundleSite⟩
        ⟨Method.GET, "/api/analyze", undefined⟩ ⟨[], []⟩).trace ∧
      (serve ⟨⟨some "sk-1"⟩, flakyUpstream, bundleSite⟩
        ⟨Method.GET, "/api/analyze", undefined⟩ ⟨[], []⟩).world.calls =
        ([] : List OutboundCall) :=
  get_two_stage_lookup ⟨⟨some "sk-1"⟩, flakyUpstream, bundleSite⟩ "/api/analyze" undefined
    ⟨[], []⟩ [60, 104, 62] rfl

/-- C10: for every request that reaches the call, the call goes to the one
fixed URL with the header `Content-Type: application/json` and the header
`Authorization` equal to `Bearer ` followed by the credential held in the
environment when the request is handled; neither depends on the request
body. -/
theorem outbound_call_url_and_headers (ctx : Ctx) (body image : JsVal) (w : World)
    (key : String) (hkey : ctx.env.DASHSCOPE_API_KEY = some key)
    (hbody : getProp body "image" = .ok image) :
    ∃ payload,
      (serve ctx ⟨Method.POST, "/api/analyze", body⟩ w).world.calls =
        w.calls ++ [⟨
          "https://dashscope.aliyuncs.com/api/v1/services/aigc/multimodal-generation/generation",
          payload,
          [("Content-Type", "application/json"), ("Authorization", "Bearer " ++ key)]⟩] := by
  refine ⟨requestPayload image, ?_⟩
  rw [serve_analyze_calls, analyzeHandler_calls ctx.up w Res.fresh hbody]
  simp [outboundCall, apiUrl, requestHeaders, hkey, interpolate]

/-- C10 with the credential `sk-1`. -/
theorem outbound_call_url_and_headers_witness :
    ∃ payload,
      (serve ⟨⟨some "sk-1"⟩, flakyUpstream, sampleSite⟩
        ⟨Method.POST, "/api/analyze", sampleImageBody⟩ ⟨[], []⟩).world.calls =
        ([] : List OutboundCall) ++ [⟨
          "https://dashscope.aliyuncs.com/api/v1/services/aigc/multimodal-generation/generation",
          payload,
          [("Content-Type", "application/json"), ("Authorization", "Bearer " ++ "sk-1")]⟩] :=
  outbound_call_url_and_headers ⟨⟨some "sk-1"⟩, flakyUpstream, sampleSite⟩ sampleImageBody
    sampleImage ⟨[], []⟩ "sk-1" rfl rfl

end FoodIngredientIdentifier
